import Mathlib

/-!
Shallow embedding of the audio-transcription pipeline in
`src-tauri/src/services/whisper.rs` and the relay in
`src-tauri/src/services/web/pubsub.rs`.

Modelling conventions:
* `f32` samples, thresholds and intermediate audio arithmetic are idealized
  as exact rationals (`ℚ`); the dB energy value, which involves `sqrt` and
  `log10`, lives in `ℝ`.  Truncating casts (`as u64`, `as usize`) on
  non-negative values are modelled with `Nat.floor`.
* The monotonic clock (`Instant`) is modelled as a millisecond timestamp
  `ℕ` passed explicitly; `elapsed()` is truncated subtraction.
* The `Mutex`-guarded fields of the Rust `WhisperState` are modelled as the
  fields of a plain structure, and the command handlers as pure state
  transformers; each handler body is translated statement by statement.
-/

namespace Whisper

/-- `CHUNK_DURATION_SECS` from whisper.rs: fixed emission interval (s) used
when VAD is disabled. -/
def CHUNK_DURATION_SECS : ℕ := 5

/-- `VadConfig` from whisper.rs. -/
structure VadConfig where
  enabled : Bool
  silence_threshold_db : ℚ
  silence_duration_ms : ℕ
  min_chunk_duration_ms : ℕ
  deriving Repr, DecidableEq

/-- `WhisperState` from whisper.rs.  The Rust struct wraps every field in
`Arc<Mutex<...>>`; here the session state is a plain record.  The one-shot
stop channel `stop_sender : Option<Sender<()>>` is modelled by
`Option Unit`: only its presence/absence is observable. -/
structure WhisperState where
  stop_sender : Option Unit
  audio_buffer : List ℚ
  sample_rate : ℕ
  channels : ℕ
  is_recording : Bool
  vad_config : VadConfig
  consecutive_silent_frames : ℕ
  last_transcription_time : ℕ
  deriving Repr, DecidableEq

/-- Sum of squares of the samples, as computed by
`samples.iter().map(|s| s * s).sum()` in `calculate_rms_db`. -/
def sumSquares (samples : List ℚ) : ℚ :=
  (samples.map (fun s => s * s)).sum

/-- `calculate_rms_db` from whisper.rs: dBFS energy of a sample slice.
Returns `-100` for an empty slice; otherwise computes
`rms = sqrt(sum_squares / len)` and returns `20 * log10 rms` when
`rms > 0`, else `-100`. -/
noncomputable def calculate_rms_db (samples : List ℚ) : ℝ :=
  if samples = [] then
    -100
  else if 0 < Real.sqrt ((sumSquares samples : ℝ) / (samples.length : ℝ)) then
    20 * Real.logb 10 (Real.sqrt ((sumSquares samples : ℝ) / (samples.length : ℝ)))
  else
    -100

/-- Stereo-to-mono downmix from `transcribe_chunk`
(`chunks_exact(2).map(|c| (c[0] + c[1]) / 2.0)`): averages adjacent sample
pairs, dropping a trailing unpaired sample. -/
def downmixStereo : List ℚ → List ℚ
  | a :: b :: rest => (a + b) / 2 :: downmixStereo rest
  | _ => []

/-- The `mono_data` stage of `transcribe_chunk`: downmix only when the
source has exactly 2 channels, otherwise pass samples through. -/
def monoData (channels : ℕ) (audio : List ℚ) : List ℚ :=
  if channels = 2 then downmixStereo audio else audio

/-- The `resampled_data` stage of `transcribe_chunk`: nearest-neighbour
resampling by index scaling when the source rate is not 16 kHz
(`ratio = 16000 / sample_rate`, `target_len = (len * ratio) as usize`,
`src_idx = (i / ratio) as usize`, pushed only when in bounds). -/
def resampleTo16k (sample_rate : ℕ) (mono : List ℚ) : List ℚ :=
  if sample_rate ≠ 16000 then
    (List.range (Nat.floor ((mono.length : ℚ) * (16000 / (sample_rate : ℚ))))).filterMap
      (fun i => mono[(Nat.floor ((i : ℚ) / (16000 / (sample_rate : ℚ))))]?)
  else
    mono

/-- The preprocessing normalization performed at the head of
`transcribe_chunk`: downmix, then resample to 16 kHz mono. -/
def normalize (audio : List ℚ) (sample_rate channels : ℕ) : List ℚ :=
  resampleTo16k sample_rate (monoData channels audio)

/-- Lines 504-546 of whisper.rs, after the silent-frame counter has been
updated: estimate the accumulated silence as
`consecutive_silent_frames * chunk_duration_ms` with
`chunk_duration_ms = (len / channels / sample_rate * 1000) as u64`, and
emit exactly when that estimate reaches `silence_duration_ms` and the time
since the last transcription reaches `min_chunk_duration_ms`; on emission
the counter is reset and the emission timestamp set to `now`. -/
def silenceGate (st1 : WhisperState) (now : ℕ) (len : ℕ) : WhisperState × Bool :=
  if st1.vad_config.silence_duration_ms ≤
       st1.consecutive_silent_frames *
         Nat.floor ((len : ℚ) / (st1.channels : ℚ) / (st1.sample_rate : ℚ) * 1000)
     ∧ st1.vad_config.min_chunk_duration_ms ≤ now - st1.last_transcription_time then
    ({ st1 with consecutive_silent_frames := 0, last_transcription_time := now }, true)
  else
    (st1, false)

/-- The `should_process` computation of `process_audio_chunk`
(lines 481-566 of whisper.rs), including its updates to
`consecutive_silent_frames` and `last_transcription_time`.
With VAD enabled the new chunk's energy is compared against the silence
threshold, the silent-run counter incremented or reset, and `silenceGate`
applied; with VAD disabled, emission happens when
`elapsed().as_secs() >= CHUNK_DURATION_SECS`. -/
noncomputable def vad_decide (st : WhisperState) (now : ℕ) (data : List ℚ) :
    WhisperState × Bool :=
  if st.vad_config.enabled then
    silenceGate
      (if calculate_rms_db data < (st.vad_config.silence_threshold_db : ℝ) then
        { st with consecutive_silent_frames := st.consecutive_silent_frames + 1 }
      else
        { st with consecutive_silent_frames := 0 })
      now data.length
  else if CHUNK_DURATION_SECS ≤ (now - st.last_transcription_time) / 1000 then
    ({ st with last_transcription_time := now }, true)
  else
    (st, false)

/-- `process_audio_chunk` from whisper.rs as a state transformer.  The
second component is the segment handed to the spawned transcription thread
(`none` when no transcription job is started, hence also no
`whisper:partial_result` event can be emitted for this call).  Mirrors the
source: early return when not recording, buffer append, the
`should_process` decision, the re-check of the recording flag, the drain,
and the 3200-sample minimum. -/
noncomputable def process_audio_chunk (st : WhisperState) (now : ℕ) (data : List ℚ) :
    WhisperState × Option (List ℚ) :=
  if st.is_recording then
    pacEmit (vad_decide { st with audio_buffer := st.audio_buffer ++ data } now data)
  else
    (st, none)
where
  /-- Lines 568-603: on a positive decision, re-check the flag, drain the
  buffer, and discard segments shorter than 3200 samples. -/
  pacEmit : WhisperState × Bool → WhisperState × Option (List ℚ)
    | (st2, false) => (st2, none)
    | (st2, true) =>
      if st2.is_recording then
        if st2.audio_buffer.length < 3200 then
          ({ st2 with audio_buffer := [] }, none)
        else
          ({ st2 with audio_buffer := [] }, some st2.audio_buffer)
      else
        (st2, none)

/-- `stop_recording` from whisper.rs: sets the recording flag false, then
takes the stop sender — failing with "Not recording" when it is absent —
and finally (after the grace sleep) clears the sample buffer, returning
the empty string. -/
def stop_recording (st : WhisperState) : WhisperState × Except String String :=
  match ({ st with is_recording := false } : WhisperState).stop_sender with
  | none => ({ st with is_recording := false }, .error "Not recording")
  | some _ =>
      ({ st with is_recording := false, stop_sender := none, audio_buffer := [] },
        .ok "")

/-! ## Asset provisioning (`ensure_dependencies`, `verify_file`)

The filesystem is modelled as a map from paths to byte lists; bytes are
naturals.  The network, the SHA-256 function and the zip extractor are
environment parameters: the code treats them as black boxes, the claims
quantify over their outcomes. -/

/-- The filesystem visible to `ensure_dependencies`: path to contents. -/
def Fs : Type := String → Option (List ℕ)

/-- `File::create` followed by `write_all` of complete contents. -/
def fsSet (fs : Fs) (p : String) (b : List ℕ) : Fs :=
  fun q => if q = p then some b else fs q

/-- `fs::remove_file` (the source discards its result with `.ok()`). -/
def fsRemove (fs : Fs) (p : String) : Fs :=
  fun q => if q = p then none else fs q

/-- `write_all` on an already-created file: append to current contents. -/
def fsAppend (fs : Fs) (p : String) (b : List ℕ) : Fs :=
  fsSet fs p (((fs p).getD []) ++ b)

/-- `Path::exists`. -/
def fsExists (fs : Fs) (p : String) : Bool :=
  (fs p).isSome

/-- `whisper_dir.join("main.exe")` — the engine's final path. -/
def whisperExePath : String := "whisper/main.exe"

/-- `whisper_dir.join("ggml-base.en.bin")` — the model's final path. -/
def modelPath : String := "whisper/ggml-base.en.bin"

/-- `whisper_dir.join("whisper.zip")` — the engine archive's download path. -/
def zipPath : String := "whisper/whisper.zip"

/-- `WHISPER_ZIP_HASH` from whisper.rs. -/
def WHISPER_ZIP_HASH : String :=
  "9cb13bbe167e0947afedd7ff9766575c4324b3cd01b4267be2ba9648dc7e8cc9"

/-- `MODEL_HASH` from whisper.rs. -/
def MODEL_HASH : String :=
  "a03779c86df3323075f5e796cb2ce5029f00ec8869eee3fdfb897afe36c6d002"

/-- Environment of `ensure_dependencies`: the SHA-256 digest function
(hex-encoded), the outcome of the two HTTP downloads (the engine zip is
read whole via `bytes()`, the model is streamed chunk by chunk), and the
zip extractor (entry paths with contents, or an error). -/
structure Env where
  hash : List ℕ → String
  zipGet : Except String (List ℕ)
  modelGet : Except String Unit
  modelChunks : List (Except String (List ℕ))
  extract : List ℕ → Except String (List (String × List ℕ))

/-- `str::to_lowercase` as used in `verify_file`: lowercase every
character (structural recursion over the string's characters). -/
def strLower (s : String) : String :=
  ⟨s.data.map Char.toLower⟩

/-- `verify_file` from whisper.rs: hash the file's bytes and compare the
hex digest against the expected hash, case-insensitively. -/
def verify_file (env : Env) (fs : Fs) (p : String) (expected : String) :
    Except String Unit :=
  match fs p with
  | none => .error "Failed to open file for verification"
  | some bytes =>
      if strLower (env.hash bytes) = strLower expected then .ok ()
      else .error ("Hash mismatch! Expected " ++ expected)

/-- The model-download loop of `ensure_dependencies` (lines 170-186):
each streamed chunk is appended to the file at `modelPath`; a chunk error
aborts with "Failed to read chunk", leaving the bytes written so far. -/
def writeChunks (fs : Fs) : List (Except String (List ℕ)) → Fs × Except String Unit
  | [] => (fs, .ok ())
  | .error e :: _ => (fs, .error ("Failed to read chunk: " ++ e))
  | .ok c :: rest => writeChunks (fsAppend fs modelPath c) rest

/-- The engine-provisioning half of `ensure_dependencies`
(lines 124-156): when `main.exe` is absent, download the release zip,
write it to `zipPath`, verify its hash (deleting the zip and failing on
mismatch), extract it into the whisper directory, and delete the zip. -/
def ensureZip (env : Env) (fs : Fs) : Fs × Except String Unit :=
  if fsExists fs whisperExePath then (fs, .ok ())
  else
    match env.zipGet with
    | .error e => (fs, .error ("Failed to download whisper: " ++ e))
    | .ok bytes =>
        match verify_file env (fsSet fs zipPath bytes) zipPath WHISPER_ZIP_HASH with
        | .error e =>
            (fsRemove (fsSet fs zipPath bytes) zipPath,
              .error ("Security check failed for Whisper binary: " ++ e))
        | .ok _ =>
            match env.extract bytes with
            | .error e => (fsSet fs zipPath bytes, .error e)
            | .ok entries =>
                (fsRemove
                  (entries.foldl (fun f pe => fsSet f pe.1 pe.2) (fsSet fs zipPath bytes))
                  zipPath,
                  .ok ())

/-- The model-provisioning half of `ensure_dependencies` (lines 158-195):
when the model is absent, stream-download it **directly to its final
path**, then verify its hash, deleting the file and failing on mismatch. -/
def ensureModel (env : Env) (fs : Fs) : Fs × Except String Unit :=
  if fsExists fs modelPath then (fs, .ok ())
  else
    match env.modelGet with
    | .error e => (fs, .error ("Failed to download model: " ++ e))
    | .ok _ =>
        match writeChunks (fsSet fs modelPath []) env.modelChunks with
        | (fs2, .error e) => (fs2, .error e)
        | (fs2, .ok _) =>
            match verify_file env fs2 modelPath MODEL_HASH with
            | .ok _ => (fs2, .ok ())
            | .error e =>
                (fsRemove fs2 modelPath,
                  .error ("Security check failed for Whisper model: " ++ e))

/-- `ensure_dependencies` from whisper.rs: engine first, then the model;
any failure aborts the call. -/
def ensure_dependencies (env : Env) (fs : Fs) : Fs × Except String Unit :=
  match ensureZip env fs with
  | (fs1, .ok _) => ensureModel env fs1
  | (fs1, .error e) => (fs1, .error e)

/-- The bytes a fully successful chunk stream delivers: the concatenation
of all chunks, or `none` if any chunk is an error. -/
def chunksJoined : List (Except String (List ℕ)) → Option (List ℕ)
  | [] => some []
  | .ok c :: rest => (chunksJoined rest).map (fun t => c ++ t)
  | .error _ :: _ => none

end Whisper

/-! ## Remote audio relay (`pubsub.rs`) -/

namespace PubSub

/-- One inbound WebSocket message as dispatched by `peer_handler`:
a binary frame (raw bytes), a text frame, or any other frame
(close/ping/...) on which `msg.to_str()` fails and the loop breaks. -/
inductive WsMsg where
  | binary (bytes : List ℕ)
  | text (s : String)
  | other
  deriving Repr, DecidableEq

/-- Observable state of the relay: the peer registry (identifier to
delivered outbound text messages, modelling each peer's unbounded send
queue), the process-wide `output` sink, and the chunks of decoded samples
handed to `process_audio_chunk` (each sample as its little-endian 32-bit
pattern). -/
structure RelayState where
  peers : List (String × List String)
  output : List String
  ingest : List (List ℕ)
  deriving Repr, DecidableEq

/-- `f32::from_le_bytes` over `chunks_exact(4)`: each 4-byte group becomes
one sample, identified with its little-endian 32-bit word; a trailing
group shorter than 4 bytes is dropped. -/
def f32LeWords : List ℕ → List ℕ
  | b0 :: b1 :: b2 :: b3 :: rest =>
      (b0 + 256 * (b1 + 256 * (b2 + 256 * b3))) :: f32LeWords rest
  | _ => []

/-- One iteration of the `while let Some(result) = peer_rx.next()` loop of
`peer_handler` for the registered peer `selfId`.  Returns the updated
state and whether the loop continues.  A binary frame whose length is a
multiple of 4 is decoded and forwarded to ingest only; other binary
frames are dropped; a text frame goes to the output sink and to every
other registered peer; any other frame breaks the loop. -/
def handleMsg (selfId : String) (st : RelayState) : WsMsg → RelayState × Bool
  | .binary bytes =>
      if bytes.length % 4 = 0 then
        ({ st with ingest := st.ingest ++ [f32LeWords bytes] }, true)
      else
        (st, true)
  | .text s =>
      ({ st with
          output := st.output ++ [s],
          peers := st.peers.map (fun pe => if pe.1 = selfId then pe else (pe.1, pe.2 ++ [s])) },
        true)
  | .other => (st, false)

/-- The message loop of `peer_handler`: fold `handleMsg` over the inbound
messages, stopping at the first break. -/
def runLoop (selfId : String) : List WsMsg → RelayState → RelayState
  | [], st => st
  | m :: rest, st =>
      match handleMsg selfId st m with
      | (st1, true) => runLoop selfId rest st1
      | (st1, false) => st1

/-- `peer_handler` from pubsub.rs over a connection's whole lifetime: a
duplicate identifier returns immediately (the registry untouched);
otherwise the peer is registered, its messages processed, and on
termination its identifier removed. -/
def peer_handler (selfId : String) (msgs : List WsMsg) (st : RelayState) : RelayState :=
  if (st.peers.map Prod.fst).contains selfId then st
  else
    match runLoop selfId msgs { st with peers := st.peers ++ [(selfId, [])] } with
    | st2 => { st2 with peers := st2.peers.filter (fun pe => pe.1 ≠ selfId) }

end PubSub

/-! ## Concrete states and environments used to instantiate the theorems -/

/-- A session that has never been started: no stop sender, not recording. -/
def stIdle : Whisper.WhisperState :=
  { stop_sender := none, audio_buffer := [3, 4], sample_rate := 16000,
    channels := 1, is_recording := false,
    vad_config :=
      { enabled := true, silence_threshold_db := -40,
        silence_duration_ms := 1500, min_chunk_duration_ms := 1000 },
    consecutive_silent_frames := 2, last_transcription_time := 100 }

/-- An active session with VAD enabled (the default start configuration). -/
def stRecEnabled : Whisper.WhisperState :=
  { stop_sender := some (), audio_buffer := [], sample_rate := 16000,
    channels := 1, is_recording := true,
    vad_config :=
      { enabled := true, silence_threshold_db := -40,
        silence_duration_ms := 1500, min_chunk_duration_ms := 1000 },
    consecutive_silent_frames := 0, last_transcription_time := 0 }

/-- An active session with VAD disabled (fixed 5-second interval mode). -/
def stRecDisabled : Whisper.WhisperState :=
  { stop_sender := some (), audio_buffer := [], sample_rate := 16000,
    channels := 1, is_recording := true,
    vad_config :=
      { enabled := false, silence_threshold_db := -40,
        silence_duration_ms := 1500, min_chunk_duration_ms := 1000 },
    consecutive_silent_frames := 0, last_transcription_time := 0 }

/-- An empty filesystem: neither artifact provisioned. -/
def fsEmpty : Whisper.Fs := fun _ => none

/-- A filesystem where the engine is provisioned but the model is not. -/
def fsExeOnly : Whisper.Fs :=
  fun q => if q = Whisper.whisperExePath then some [] else none

/-- An environment whose digest function never matches the pinned hashes:
every download hash-verifies to `"0f"`. -/
def envMismatch : Whisper.Env :=
  { hash := fun _ => "0f", zipGet := .ok [9, 9], modelGet := .ok (),
    modelChunks := [.ok [1, 2, 3]], extract := fun _ => .error "unused" }

/-- An environment where the model download fails mid-stream: the first
chunk arrives, the second errors. -/
def envPartial : Whisper.Env :=
  { hash := fun _ => "0f", zipGet := .error "unused", modelGet := .ok (),
    modelChunks := [.ok [1, 2, 3], .error "connection reset"],
    extract := fun _ => .error "unused" }

/-- A relay with two registered peers "A" and "B" and quiet channels. -/
def relaySt : PubSub.RelayState :=
  { peers := [("A", []), ("B", [])], output := [], ingest := [] }

/-! ## Helper lemmas -/

/-- A slice of zeros has zero sum of squares. -/
theorem Whisper.sumSquares_eq_zero (t : List ℚ) (h : ∀ x ∈ t, x = 0) :
    Whisper.sumSquares t = 0 := by
  apply List.sum_eq_zero
  intro y hy
  obtain ⟨x, hx, rfl⟩ := List.mem_map.mp hy
  rw [h x hx, mul_zero]

/-- A slice with a nonzero sample has positive sum of squares. -/
theorem Whisper.sumSquares_pos (s : List ℚ) (x : ℚ) (hx : x ∈ s) (hxne : x ≠ 0) :
    0 < Whisper.sumSquares s := by
  have h1 : 0 < x * x := mul_self_pos.mpr hxne
  have h2 : x * x ≤ Whisper.sumSquares s := by
    apply List.single_le_sum
    · intro y hy
      obtain ⟨z, _, rfl⟩ := List.mem_map.mp hy
      exact mul_self_nonneg z
    · exact List.mem_map_of_mem _ hx
  exact lt_of_lt_of_le h1 h2

/-! ## Claim theorems -/

/-- C8: the energy function returns exactly −100 dB for the empty sample
sequence and for every all-zero sample sequence, and for every other input
returns `20·log10(rms)` with `rms = sqrt(mean(sample²))`. -/
theorem C8_energy_db (s : List ℚ) (hne : s ≠ []) (hnz : ∃ x ∈ s, x ≠ 0) :
    Whisper.calculate_rms_db [] = -100 ∧
    (∀ t : List ℚ, (∀ x ∈ t, x = 0) → Whisper.calculate_rms_db t = -100) ∧
    Whisper.calculate_rms_db s =
      20 * Real.logb 10
        (Real.sqrt ((Whisper.sumSquares s : ℝ) / (s.length : ℝ))) := by
  refine ⟨by simp [Whisper.calculate_rms_db], ?_, ?_⟩
  · intro t ht
    by_cases h : t = []
    · simp [Whisper.calculate_rms_db, h]
    · rw [Whisper.calculate_rms_db, if_neg h, Whisper.sumSquares_eq_zero t ht]
      simp
  · obtain ⟨x, hx, hxne⟩ := hnz
    have hpos : (0 : ℝ) < (Whisper.sumSquares s : ℝ) := by
      exact_mod_cast Whisper.sumSquares_pos s x hx hxne
    have hlen : (0 : ℝ) < (s.length : ℝ) := by
      have : 0 < s.length := List.length_pos.mpr hne
      exact_mod_cast this
    have hsq : 0 < Real.sqrt ((Whisper.sumSquares s : ℝ) / (s.length : ℝ)) :=
      Real.sqrt_pos.mpr (div_pos hpos hlen)
    rw [Whisper.calculate_rms_db, if_neg hne, if_pos hsq]

/-- C8 witness: the theorem applied at the concrete slice `[1]`. -/
theorem C8_energy_db_witness :
    (([1] : List ℚ) ≠ [] ∧ ∃ x ∈ ([1] : List ℚ), x ≠ 0) ∧
    (Whisper.calculate_rms_db [] = -100 ∧
      (∀ t : List ℚ, (∀ x ∈ t, x = 0) → Whisper.calculate_rms_db t = -100) ∧
      Whisper.calculate_rms_db [1] =
        20 * Real.logb 10
          (Real.sqrt ((Whisper.sumSquares [1] : ℝ) / (([1] : List ℚ).length : ℝ)))) :=
  ⟨⟨by simp, ⟨1, by simp, by norm_num⟩⟩,
    C8_energy_db [1] (by simp) ⟨1, by simp, by norm_num⟩⟩

/-- C9: the preprocessing normalization is the identity on already
normalized input — with source rate 16000 Hz and one channel, `normalize`
returns its input unchanged. -/
theorem C9_normalize_identity (x : List ℚ) : Whisper.normalize x 16000 1 = x := by
  simp [Whisper.normalize, Whisper.monoData, Whisper.resampleTo16k]

/-- C5: `stop_recording` fails with "Not recording" exactly when the stop
sender is absent; otherwise it consumes the sender, sets the recording
flag false, clears the buffer, and returns the empty string. -/
theorem C5_stop_recording (st : Whisper.WhisperState) :
    ((Whisper.stop_recording st).2 = Except.error "Not recording" ↔
      st.stop_sender = none) ∧
    (st.stop_sender ≠ none →
      Whisper.stop_recording st =
        ({ st with is_recording := false, stop_sender := none, audio_buffer := [] },
          Except.ok "")) := by
  cases h : st.stop_sender <;> simp [Whisper.stop_recording, h]

/-- C5 witness: stopping the active session `stRecEnabled` succeeds. -/
theorem C5_stop_recording_witness :
    stRecEnabled.stop_sender ≠ none ∧
    Whisper.stop_recording stRecEnabled =
      ({ stRecEnabled with
          is_recording := false, stop_sender := none, audio_buffer := [] },
        Except.ok "") :=
  ⟨by simp [stRecEnabled], (C5_stop_recording stRecEnabled).2 (by simp [stRecEnabled])⟩

/-- C10: a chunk arriving while the recording flag is false leaves the
whole session state unchanged and starts no transcription job. -/
theorem C10_ingest_when_idle (st : Whisper.WhisperState) (now : ℕ) (data : List ℚ)
    (h : st.is_recording = false) :
    Whisper.process_audio_chunk st now data = (st, none) := by
  simp [Whisper.process_audio_chunk, h]

/-- C10 witness: the theorem applied to the idle session `stIdle`. -/
theorem C10_ingest_when_idle_witness :
    stIdle.is_recording = false ∧
    Whisper.process_audio_chunk stIdle 42 [1, 2] = (stIdle, none) :=
  ⟨rfl, C10_ingest_when_idle stIdle 42 [1, 2] rfl⟩

/-- Each 4-byte group yields one decoded sample. -/
theorem PubSub.f32LeWords_length : ∀ bs : List ℕ,
    (PubSub.f32LeWords bs).length = bs.length / 4
  | _ :: _ :: _ :: _ :: rest => by
      rw [PubSub.f32LeWords]
      simp only [List.length_cons, PubSub.f32LeWords_length rest]
      omega
  | [] => rfl
  | [_] => by simp [PubSub.f32LeWords]
  | [_, _] => by simp [PubSub.f32LeWords]
  | [_, _, _] => by simp [PubSub.f32LeWords]

/-- Broadcasting a text message does not change the registered ids. -/
theorem PubSub.map_fst_broadcast (selfId s : String)
    (l : List (String × List String)) :
    (l.map fun pe => if pe.1 = selfId then pe else (pe.1, pe.2 ++ [s])).map
        Prod.fst = l.map Prod.fst := by
  induction l with
  | nil => rfl
  | cons a t ih =>
      simp only [List.map_cons, ih, List.cons.injEq, and_true]
      split <;> rfl

/-- One loop iteration preserves the registered ids. -/
theorem PubSub.handleMsg_keys (selfId : String) (st : PubSub.RelayState)
    (m : PubSub.WsMsg) :
    ((PubSub.handleMsg selfId st m).1).peers.map Prod.fst =
      st.peers.map Prod.fst := by
  cases m with
  | binary bytes =>
      by_cases h : bytes.length % 4 = 0 <;> simp [PubSub.handleMsg, h]
  | text s =>
      simp only [PubSub.handleMsg]
      exact PubSub.map_fst_broadcast selfId s st.peers
  | other => rfl

/-- The whole message loop preserves the registered ids. -/
theorem PubSub.runLoop_keys (selfId : String) : ∀ (msgs : List PubSub.WsMsg)
    (st : PubSub.RelayState),
    (PubSub.runLoop selfId msgs st).peers.map Prod.fst = st.peers.map Prod.fst
  | [], _ => rfl
  | m :: rest, st => by
      have hk := PubSub.handleMsg_keys selfId st m
      rw [PubSub.runLoop]
      cases h : PubSub.handleMsg selfId st m with
      | mk st1 cont =>
        rw [h] at hk
        cases cont
        · exact hk
        · rw [PubSub.runLoop_keys selfId rest st1, hk]

/-- Removing a peer commutes with projecting the ids. -/
theorem PubSub.map_fst_filter (x : String) (l : List (String × List String)) :
    ((l.filter fun pe => pe.1 ≠ x).map Prod.fst) =
      (l.map Prod.fst).filter (fun i => i ≠ x) := by
  induction l with
  | nil => rfl
  | cons a t ih =>
      simp only [ne_eq, decide_not] at ih ⊢
      by_cases h : a.1 = x <;> simp [List.filter_cons, h, ih]

/-- C6: a binary frame from a registered relay peer whose length is a
multiple of 4 is decoded into exactly `length/4` little-endian samples and
appended to the ingest stream, touching no peer's outbound queue; a frame
whose length is not a multiple of 4 changes nothing at all. -/
theorem C6_binary_frame (selfId : String) (st : PubSub.RelayState)
    (bytes : List ℕ) :
    (bytes.length % 4 = 0 →
      PubSub.handleMsg selfId st (.binary bytes) =
        ({ st with ingest := st.ingest ++ [PubSub.f32LeWords bytes] }, true) ∧
      (PubSub.f32LeWords bytes).length = bytes.length / 4) ∧
    (bytes.length % 4 ≠ 0 →
      PubSub.handleMsg selfId st (.binary bytes) = (st, true)) := by
  constructor
  · intro h
    exact ⟨by simp [PubSub.handleMsg, h], PubSub.f32LeWords_length bytes⟩
  · intro h
    simp [PubSub.handleMsg, h]

/-- C6 witness: peer "A" sends the 4-byte frame for 1.0f32 (decoded to the
bit pattern 1065353216 and ingested, with peer "B" receiving nothing), and
a 3-byte frame (dropped entirely). -/
theorem C6_binary_frame_witness :
    (([0, 0, 128, 63] : List ℕ).length % 4 = 0 ∧
      (PubSub.handleMsg "A" relaySt (.binary [0, 0, 128, 63]) =
        ({ relaySt with
            ingest := relaySt.ingest ++ [PubSub.f32LeWords [0, 0, 128, 63]] },
          true) ∧
        (PubSub.f32LeWords [0, 0, 128, 63]).length =
          ([0, 0, 128, 63] : List ℕ).length / 4)) ∧
    (([1, 2, 3] : List ℕ).length % 4 ≠ 0 ∧
      PubSub.handleMsg "A" relaySt (.binary [1, 2, 3]) = (relaySt, true)) :=
  ⟨⟨by decide, (C6_binary_frame "A" relaySt [0, 0, 128, 63]).1 (by decide)⟩,
    ⟨by decide, (C6_binary_frame "A" relaySt [1, 2, 3]).2 (by decide)⟩⟩

/-- C7: a connection presenting an already-registered identifier is
rejected with the registry (and every peer's state) untouched, and its
termination does not unregister the original peer; a fresh identifier is
registered for the whole message loop and removed exactly once when its
own connection terminates, leaving the other registrations as they were. -/
theorem C7_duplicate_registration (selfId : String) (msgs : List PubSub.WsMsg)
    (st : PubSub.RelayState) :
    (selfId ∈ st.peers.map Prod.fst →
      PubSub.peer_handler selfId msgs st = st) ∧
    (selfId ∉ st.peers.map Prod.fst →
      selfId ∈
        (PubSub.runLoop selfId msgs
          { st with peers := st.peers ++ [(selfId, [])] }).peers.map Prod.fst ∧
      (PubSub.peer_handler selfId msgs st).peers.map Prod.fst =
        st.peers.map Prod.fst) := by
  have hc : (st.peers.map Prod.fst).contains selfId =
      decide (selfId ∈ st.peers.map Prod.fst) := by
    simp [List.contains]
  constructor
  · intro h
    simp [PubSub.peer_handler, hc, h]
  · intro h
    have hk := PubSub.runLoop_keys selfId msgs
      { st with peers := st.peers ++ [(selfId, [])] }
    refine ⟨by rw [hk]; simp, ?_⟩
    simp only [PubSub.peer_handler, hc, h, decide_False, Bool.false_eq_true,
      if_false]
    rw [PubSub.map_fst_filter, hk]
    simp only [List.map_append, List.map_cons, List.map_nil, List.filter_append]
    have h1 : st.peers.map Prod.fst =
        (st.peers.map Prod.fst).filter (fun i => i ≠ selfId) := by
      symm
      apply List.filter_eq_self.mpr
      intro a ha
      have hne : a ≠ selfId := by rintro rfl; exact h ha
      simp [hne]
    rw [← h1]
    simp

/-- C7 witness: the theorem at the two-peer relay `relaySt`, for the
already-registered id "A" and the fresh id "C". -/
theorem C7_duplicate_registration_witness :
    ("A" ∈ relaySt.peers.map Prod.fst ∧
      PubSub.peer_handler "A" [PubSub.WsMsg.text "hello"] relaySt = relaySt) ∧
    ("C" ∉ relaySt.peers.map Prod.fst ∧
      ("C" ∈
        (PubSub.runLoop "C" [PubSub.WsMsg.text "hello"]
          { relaySt with peers := relaySt.peers ++ [("C", [])] }).peers.map
            Prod.fst ∧
      (PubSub.peer_handler "C" [PubSub.WsMsg.text "hello"] relaySt).peers.map
          Prod.fst = relaySt.peers.map Prod.fst)) :=
  ⟨⟨by decide,
      (C7_duplicate_registration "A" [PubSub.WsMsg.text "hello"] relaySt).1
        (by decide)⟩,
    ⟨by decide,
      (C7_duplicate_registration "C" [PubSub.WsMsg.text "hello"] relaySt).2
        (by decide)⟩⟩

/-- The decision step never touches the recording flag. -/
theorem Whisper.vad_decide_is_recording (st : Whisper.WhisperState) (now : ℕ)
    (data : List ℚ) :
    (Whisper.vad_decide st now data).1.is_recording = st.is_recording := by
  rw [Whisper.vad_decide]
  split_ifs <;>
    first
      | rfl
      | (rw [Whisper.silenceGate]; split_ifs <;> rfl)

/-- C3: with VAD enabled, a chunk strictly below the threshold increments
the silent-run counter and any other chunk resets it; the decision is Emit
exactly when the estimated silence `run × ⌊len/channels/rate·1000⌋` reaches
`silence_duration_ms` and the time since the last emission reaches
`min_chunk_duration_ms`, and emitting resets the counter and stamps `now`.
With VAD disabled the decision is Emit exactly when 5 s have elapsed. -/
theorem C3_vad_segmentation (st : Whisper.WhisperState) (now : ℕ) (data : List ℚ)
    (hrec : st.is_recording = true) :
    (st.vad_config.enabled = true →
      ((st.vad_config.silence_duration_ms ≤
          (if Whisper.calculate_rms_db data <
              (st.vad_config.silence_threshold_db : ℝ)
            then st.consecutive_silent_frames + 1 else 0) *
            Nat.floor ((data.length : ℚ) / (st.channels : ℚ) /
              (st.sample_rate : ℚ) * 1000) ∧
        st.vad_config.min_chunk_duration_ms ≤ now - st.last_transcription_time) →
          Whisper.vad_decide st now data =
            ({ st with
                consecutive_silent_frames := 0
                last_transcription_time := now }, true)) ∧
      (¬(st.vad_config.silence_duration_ms ≤
          (if Whisper.calculate_rms_db data <
              (st.vad_config.silence_threshold_db : ℝ)
            then st.consecutive_silent_frames + 1 else 0) *
            Nat.floor ((data.length : ℚ) / (st.channels : ℚ) /
              (st.sample_rate : ℚ) * 1000) ∧
        st.vad_config.min_chunk_duration_ms ≤ now - st.last_transcription_time) →
          Whisper.vad_decide st now data =
            ({ st with consecutive_silent_frames :=
                if Whisper.calculate_rms_db data <
                    (st.vad_config.silence_threshold_db : ℝ)
                  then st.consecutive_silent_frames + 1 else 0 }, false))) ∧
    (st.vad_config.enabled = false →
      ((5000 ≤ now - st.last_transcription_time →
          Whisper.vad_decide st now data =
            ({ st with last_transcription_time := now }, true)) ∧
        (now - st.last_transcription_time < 5000 →
          Whisper.vad_decide st now data = (st, false)))) := by
  constructor
  · intro he
    by_cases hs : Whisper.calculate_rms_db data <
        (st.vad_config.silence_threshold_db : ℝ)
    · refine ⟨fun hcond => ?_, fun hcond => ?_⟩
      · rw [if_pos hs] at hcond
        simp [Whisper.vad_decide, Whisper.silenceGate, he, hs, hcond]
      · rw [if_pos hs] at hcond
        simp [Whisper.vad_decide, Whisper.silenceGate, he, hs, hcond]
    · refine ⟨fun hcond => ?_, fun hcond => ?_⟩
      · rw [if_neg hs] at hcond
        obtain ⟨h1, h2⟩ := hcond
        simp only [zero_mul, Nat.le_zero] at h1
        simp [Whisper.vad_decide, Whisper.silenceGate, he, hs, h1, h2]
      · rw [if_neg hs] at hcond
        simp only [zero_mul, Nat.le_zero] at hcond
        simp [Whisper.vad_decide, Whisper.silenceGate, he, hs, hcond]
  · intro he
    have h5 : Whisper.CHUNK_DURATION_SECS ≤
        (now - st.last_transcription_time) / 1000 ↔
        5000 ≤ now - st.last_transcription_time := by
      rw [Whisper.CHUNK_DURATION_SECS, Nat.le_div_iff_mul_le (by norm_num)]
    refine ⟨fun hge => ?_, fun hlt => ?_⟩
    · simp [Whisper.vad_decide, he, h5.mpr hge]
    · have hn : ¬ Whisper.CHUNK_DURATION_SECS ≤
          (now - st.last_transcription_time) / 1000 := by
        rw [h5]; omega
      simp [Whisper.vad_decide, he, hn]

/-- C3 witness: the theorem at the active VAD session `stRecEnabled`,
timestamp 2000 ms, and the silent chunk `[0]`. -/
theorem C3_vad_segmentation_witness :
    stRecEnabled.is_recording = true ∧
    ((stRecEnabled.vad_config.enabled = true →
      ((stRecEnabled.vad_config.silence_duration_ms ≤
          (if Whisper.calculate_rms_db [0] <
              (stRecEnabled.vad_config.silence_threshold_db : ℝ)
            then stRecEnabled.consecutive_silent_frames + 1 else 0) *
            Nat.floor ((([0] : List ℚ).length : ℚ) / (stRecEnabled.channels : ℚ) /
              (stRecEnabled.sample_rate : ℚ) * 1000) ∧
        stRecEnabled.vad_config.min_chunk_duration_ms ≤
          2000 - stRecEnabled.last_transcription_time) →
          Whisper.vad_decide stRecEnabled 2000 [0] =
            ({ stRecEnabled with
                consecutive_silent_frames := 0
                last_transcription_time := 2000 }, true)) ∧
      (¬(stRecEnabled.vad_config.silence_duration_ms ≤
          (if Whisper.calculate_rms_db [0] <
              (stRecEnabled.vad_config.silence_threshold_db : ℝ)
            then stRecEnabled.consecutive_silent_frames + 1 else 0) *
            Nat.floor ((([0] : List ℚ).length : ℚ) / (stRecEnabled.channels : ℚ) /
              (stRecEnabled.sample_rate : ℚ) * 1000) ∧
        stRecEnabled.vad_config.min_chunk_duration_ms ≤
          2000 - stRecEnabled.last_transcription_time) →
          Whisper.vad_decide stRecEnabled 2000 [0] =
            ({ stRecEnabled with consecutive_silent_frames :=
                if Whisper.calculate_rms_db [0] <
                    (stRecEnabled.vad_config.silence_threshold_db : ℝ)
                  then stRecEnabled.consecutive_silent_frames + 1 else 0 },
              false))) ∧
    (stRecEnabled.vad_config.enabled = false →
      ((5000 ≤ 2000 - stRecEnabled.last_transcription_time →
          Whisper.vad_decide stRecEnabled 2000 [0] =
            ({ stRecEnabled with last_transcription_time := 2000 }, true)) ∧
        (2000 - stRecEnabled.last_transcription_time < 5000 →
          Whisper.vad_decide stRecEnabled 2000 [0] = (stRecEnabled, false))))) :=
  ⟨rfl, C3_vad_segmentation stRecEnabled 2000 [0] rfl⟩

/-- C4: when the decision is Emit but the drained segment is shorter than
3200 samples, no transcription job is started, yet the buffer is cleared
and the state updates of the decision step (counter reset, emission
timestamp) are kept. -/
theorem C4_short_segment (st : Whisper.WhisperState) (now : ℕ) (data : List ℚ)
    (hrec : st.is_recording = true)
    (hemit : (Whisper.vad_decide
        { st with audio_buffer := st.audio_buffer ++ data } now data).2 = true)
    (hshort : (Whisper.vad_decide
        { st with audio_buffer := st.audio_buffer ++ data } now
          data).1.audio_buffer.length < 3200) :
    Whisper.process_audio_chunk st now data =
      ({ (Whisper.vad_decide
            { st with audio_buffer := st.audio_buffer ++ data } now data).1 with
          audio_buffer := [] }, none) := by
  have hrec2 : (Whisper.vad_decide
      { st with audio_buffer := st.audio_buffer ++ data } now
        data).1.is_recording = true := by
    rw [Whisper.vad_decide_is_recording]
    exact hrec
  rw [Whisper.process_audio_chunk, if_pos hrec]
  cases hv : Whisper.vad_decide
      { st with audio_buffer := st.audio_buffer ++ data } now data with
  | mk st2 b =>
    rw [hv] at hemit hshort hrec2
    have hb : b = true := hemit
    subst hb
    simp [Whisper.process_audio_chunk.pacEmit, hrec2, hshort]
    intro hfalse
    simp [hfalse] at hrec2

/-- C4 witness: the theorem at the VAD-disabled session `stRecDisabled`,
6 s after the last emission, with a one-sample chunk. -/
theorem C4_short_segment_witness :
    (stRecDisabled.is_recording = true ∧
      (Whisper.vad_decide
        { stRecDisabled with
            audio_buffer := stRecDisabled.audio_buffer ++ [1] } 6000 [1]).2 =
        true ∧
      (Whisper.vad_decide
        { stRecDisabled with
            audio_buffer := stRecDisabled.audio_buffer ++ [1] } 6000
          [1]).1.audio_buffer.length < 3200) ∧
    Whisper.process_audio_chunk stRecDisabled 6000 [1] =
      ({ (Whisper.vad_decide
            { stRecDisabled with
                audio_buffer := stRecDisabled.audio_buffer ++ [1] } 6000
            [1]).1 with audio_buffer := [] }, none) :=
  ⟨⟨rfl, rfl, by decide⟩,
    C4_short_segment stRecDisabled 6000 [1] rfl rfl (by decide)⟩

/-! ## Filesystem lemmas for the provisioning proofs -/

/-- Reading back a just-written file. -/
theorem Whisper.fsSet_same (fs : Whisper.Fs) (p : String) (b : List ℕ) :
    Whisper.fsSet fs p b p = some b := by
  simp [Whisper.fsSet]

/-- Writing one path leaves every other path alone. -/
theorem Whisper.fsSet_other (fs : Whisper.Fs) (p : String) (b : List ℕ)
    (q : String) (h : q ≠ p) : Whisper.fsSet fs p b q = fs q := by
  simp [Whisper.fsSet, h]

/-- A removed file is gone. -/
theorem Whisper.fsRemove_same (fs : Whisper.Fs) (p : String) :
    Whisper.fsRemove fs p p = none := by
  simp [Whisper.fsRemove]

/-- Removing one path leaves every other path alone. -/
theorem Whisper.fsRemove_other (fs : Whisper.Fs) (p q : String) (h : q ≠ p) :
    Whisper.fsRemove fs p q = fs q := by
  simp [Whisper.fsRemove, h]

/-- A second write to the same path overwrites the first. -/
theorem Whisper.fsSet_fsSet (fs : Whisper.Fs) (p : String) (a b : List ℕ) :
    Whisper.fsSet (Whisper.fsSet fs p a) p b = Whisper.fsSet fs p b := by
  funext q
  by_cases h : q = p <;> simp [Whisper.fsSet, h]

/-- A fully successful chunk stream appends exactly the joined bytes to
the file at the model path. -/
theorem Whisper.writeChunks_ok :
    ∀ (chunks : List (Except String (List ℕ))) (bs : List ℕ) (fs : Whisper.Fs)
      (cur : List ℕ),
      Whisper.chunksJoined chunks = some bs → fs Whisper.modelPath = some cur →
      Whisper.writeChunks fs chunks =
        (Whisper.fsSet fs Whisper.modelPath (cur ++ bs), Except.ok ())
  | [], bs, fs, cur, hj, hc => by
      simp only [Whisper.chunksJoined, Option.some.injEq] at hj
      subst hj
      have hfs : Whisper.fsSet fs Whisper.modelPath cur = fs := by
        funext q
        by_cases h : q = Whisper.modelPath
        · subst h; simp [Whisper.fsSet, hc]
        · simp [Whisper.fsSet, h]
      simp [Whisper.writeChunks, hfs]
  | .ok c :: rest, bs, fs, cur, hj, hc => by
      simp only [Whisper.chunksJoined, Option.map_eq_some'] at hj
      obtain ⟨t, ht, rfl⟩ := hj
      have hc2 : Whisper.fsAppend fs Whisper.modelPath c Whisper.modelPath =
          some (cur ++ c) := by
        simp [Whisper.fsAppend, Whisper.fsSet, hc]
      rw [Whisper.writeChunks,
        Whisper.writeChunks_ok rest t (Whisper.fsAppend fs Whisper.modelPath c)
          (cur ++ c) ht hc2]
      have : Whisper.fsSet (Whisper.fsAppend fs Whisper.modelPath c)
          Whisper.modelPath ((cur ++ c) ++ t) =
          Whisper.fsSet fs Whisper.modelPath (cur ++ (c ++ t)) := by
        rw [Whisper.fsAppend, Whisper.fsSet_fsSet, List.append_assoc]
      rw [this]
  | .error e :: rest, bs, fs, cur, hj, hc => by
      simp [Whisper.chunksJoined] at hj

/-- C1: whenever the hash of the downloaded bytes does not match the
pinned hash (case-insensitively) — for the engine zip or for the model —
`ensure_dependencies` deletes the downloaded file, returns the security
verification error, and leaves no file at the artifact's final path. -/
theorem C1_hash_mismatch (env : Whisper.Env) (fs : Whisper.Fs)
    (bytes bs : List ℕ) :
    (Whisper.fsExists fs Whisper.whisperExePath = false →
      env.zipGet = Except.ok bytes →
      Whisper.strLower (env.hash bytes) ≠ Whisper.strLower Whisper.WHISPER_ZIP_HASH →
      ∃ fs' : Whisper.Fs,
        Whisper.ensure_dependencies env fs =
          (fs', Except.error ("Security check failed for Whisper binary: " ++
            ("Hash mismatch! Expected " ++ Whisper.WHISPER_ZIP_HASH))) ∧
        fs' Whisper.zipPath = none ∧ fs' Whisper.whisperExePath = none) ∧
    (Whisper.fsExists fs Whisper.whisperExePath = true →
      Whisper.fsExists fs Whisper.modelPath = false →
      env.modelGet = Except.ok () →
      Whisper.chunksJoined env.modelChunks = some bs →
      Whisper.strLower (env.hash bs) ≠ Whisper.strLower Whisper.MODEL_HASH →
      ∃ fs' : Whisper.Fs,
        Whisper.ensure_dependencies env fs =
          (fs', Except.error ("Security check failed for Whisper model: " ++
            ("Hash mismatch! Expected " ++ Whisper.MODEL_HASH))) ∧
        fs' Whisper.modelPath = none) := by
  constructor
  · intro h1 h2 h3
    have hz : Whisper.ensureZip env fs =
        (Whisper.fsRemove (Whisper.fsSet fs Whisper.zipPath bytes)
          Whisper.zipPath,
          Except.error ("Security check failed for Whisper binary: " ++
            ("Hash mismatch! Expected " ++ Whisper.WHISPER_ZIP_HASH))) := by
      rw [Whisper.ensureZip]
      simp [h1, h2, Whisper.verify_file, Whisper.fsSet_same, h3]
    refine ⟨Whisper.fsRemove (Whisper.fsSet fs Whisper.zipPath bytes)
      Whisper.zipPath, ?_, ?_, ?_⟩
    · rw [Whisper.ensure_dependencies, hz]
    · exact Whisper.fsRemove_same _ _
    · rw [Whisper.fsRemove_other _ _ _ (by decide),
        Whisper.fsSet_other _ _ _ _ (by decide)]
      have h1' : ¬ (fs Whisper.whisperExePath).isSome := by
        rw [Whisper.fsExists] at h1
        simp [h1]
      exact Option.not_isSome_iff_eq_none.mp h1'
  · intro h1 h2 h3 h4 h5
    have hz : Whisper.ensureZip env fs = (fs, Except.ok ()) := by
      rw [Whisper.ensureZip]
      simp [h1]
    have hini : Whisper.fsSet fs Whisper.modelPath [] Whisper.modelPath =
        some [] := Whisper.fsSet_same _ _ _
    have hw := Whisper.writeChunks_ok env.modelChunks bs
      (Whisper.fsSet fs Whisper.modelPath []) [] h4 hini
    have hm : Whisper.ensureModel env fs =
        (Whisper.fsRemove (Whisper.fsSet fs Whisper.modelPath bs)
          Whisper.modelPath,
          Except.error ("Security check failed for Whisper model: " ++
            ("Hash mismatch! Expected " ++ Whisper.MODEL_HASH))) := by
      rw [Whisper.ensureModel]
      simp only [h2, Bool.false_eq_true, if_false, h3]
      rw [hw, Whisper.fsSet_fsSet]
      simp [Whisper.verify_file, Whisper.fsSet_same, h5]
    refine ⟨Whisper.fsRemove (Whisper.fsSet fs Whisper.modelPath bs)
      Whisper.modelPath, ?_, ?_⟩
    · rw [Whisper.ensure_dependencies, hz]
      exact hm
    · exact Whisper.fsRemove_same _ _

/-- C1 witness: with the digest function constantly `"0f"`, provisioning
from the empty filesystem rejects the engine zip `[9, 9]`, and
provisioning the model over `fsExeOnly` rejects the streamed bytes
`[1, 2, 3]`; in both runs the artifact is deleted and absent. -/
theorem C1_hash_mismatch_witness :
    ((Whisper.fsExists fsEmpty Whisper.whisperExePath = false ∧
      envMismatch.zipGet = Except.ok [9, 9] ∧
      Whisper.strLower (envMismatch.hash [9, 9]) ≠ Whisper.strLower Whisper.WHISPER_ZIP_HASH) ∧
      ∃ fs' : Whisper.Fs,
        Whisper.ensure_dependencies envMismatch fsEmpty =
          (fs', Except.error ("Security check failed for Whisper binary: " ++
            ("Hash mismatch! Expected " ++ Whisper.WHISPER_ZIP_HASH))) ∧
        fs' Whisper.zipPath = none ∧ fs' Whisper.whisperExePath = none) ∧
    ((Whisper.fsExists fsExeOnly Whisper.whisperExePath = true ∧
      Whisper.fsExists fsExeOnly Whisper.modelPath = false ∧
      envMismatch.modelGet = Except.ok () ∧
      Whisper.chunksJoined envMismatch.modelChunks = some [1, 2, 3] ∧
      Whisper.strLower (envMismatch.hash [1, 2, 3]) ≠ Whisper.strLower Whisper.MODEL_HASH) ∧
      ∃ fs' : Whisper.Fs,
        Whisper.ensure_dependencies envMismatch fsExeOnly =
          (fs', Except.error ("Security check failed for Whisper model: " ++
            ("Hash mismatch! Expected " ++ Whisper.MODEL_HASH))) ∧
        fs' Whisper.modelPath = none) :=
  ⟨⟨⟨rfl, rfl, by decide⟩,
      (C1_hash_mismatch envMismatch fsEmpty [9, 9] [1, 2, 3]).1 rfl rfl
        (by decide)⟩,
    ⟨⟨by decide, by decide, rfl, rfl, by decide⟩,
      (C1_hash_mismatch envMismatch fsExeOnly [9, 9] [1, 2, 3]).2 (by decide)
        (by decide) rfl rfl (by decide)⟩⟩

/-- C2 (failing run): with the engine already provisioned and a model
download that dies after its first chunk, `ensure_dependencies` fails but
leaves the partial bytes `[1, 2, 3]` at the model's final path, and a
second call then succeeds without re-downloading or verifying — the
partial file is mistaken for a provisioned artifact. -/
theorem C2_partial_model_file :
    (Whisper.ensure_dependencies envPartial fsExeOnly).2 =
      Except.error "Failed to read chunk: connection reset" ∧
    (Whisper.ensure_dependencies envPartial fsExeOnly).1 Whisper.modelPath =
      some [1, 2, 3] ∧
    (Whisper.ensure_dependencies envPartial
      (Whisper.ensure_dependencies envPartial fsExeOnly).1).2 = Except.ok () :=
  ⟨rfl, rfl, rfl⟩
